import Mathlib

/-!
Shallow embedding of the hotel-booking / e-commerce backend (Go + PostgreSQL).

Sources embedded here:
* `src/unnamed/part_001` — SQL schema `001_initial_schema.sql` (column defaults,
  uniqueness, sample data).
* `src/unnamed/part_003` — `CartHandler` (`GetCartItems`, `AddToCart`,
  `RemoveFromCart`, `ClearCart`).
* `src/unnamed/part_004` — `OrderHandler.CreateOrder` (checkout transaction).
* `src/backend/internal/handlers/rooms.go` — `RoomHandler.CheckRoomAvailability`.
* `src/backend/internal/handlers/admin.go` — `AdminHandler.UpdateOrderStatus`.

Modelling conventions:
* SQL `DECIMAL(10,2)` / Go `float64` money amounts are modelled as `Rat`.
* SQL `DATE` values are modelled as integer day numbers (the code parses
  `YYYY-MM-DD` strings and takes `Sub(...).Hours() / 24`, i.e. day
  differences); `daysFromCivil` converts a concrete calendar date to its day
  number so that concrete scenarios from the spec can be evaluated.
* Nullable columns are `Option`; `database/sql` `Scan` of a NULL join result
  into a non-nullable Go field is an error path (HTTP 500).
* The database is a record of lists of rows plus the `SERIAL` counters.
* A transaction is modelled by returning the original state on every error
  path (the Go code `defer tx.Rollback()` + final `tx.Commit()`); injected
  step failures (`failAt`) model a storage error at the given statement.
-/

namespace HotelShop

/-- Monetary amount (`DECIMAL(10,2)` / Go `float64`). -/
abbrev Price := Rat

/-- Row of `rooms` (fields used by the embedded handlers). -/
structure Room where
  id : Int
  title : String
  pricePerNight : Price
  isAvailable : Bool
deriving DecidableEq

/-- Row of `products` (fields used by the embedded handlers). -/
structure Product where
  id : Int
  name : String
  price : Price
  isActive : Bool
deriving DecidableEq

/-- Row of `cart_items`. -/
structure CartItem where
  id : Int
  userId : Int
  itemType : String
  itemId : Int
  quantity : Int
  checkInDate : Option Int
  checkOutDate : Option Int
deriving DecidableEq

/-- Row of `orders` (timestamps omitted). -/
structure Order where
  id : Int
  userId : Int
  orderNumber : String
  totalAmount : Price
  status : String
  customerName : String
  customerPhone : String
  customerEmail : String
  notes : String
deriving DecidableEq

/-- Row of `order_items`. -/
structure OrderItem where
  id : Int
  orderId : Int
  itemType : String
  itemId : Int
  itemName : String
  quantity : Int
  unitPrice : Price
  totalPrice : Price
  checkInDate : Option Int
  checkOutDate : Option Int
  nights : Option Int
deriving DecidableEq

/-- Row of `room_bookings`. -/
structure RoomBooking where
  id : Int
  roomId : Int
  orderId : Int
  checkInDate : Int
  checkOutDate : Int
  guestCount : Int
  status : String
deriving DecidableEq

/-- The database: one list of rows per table, plus the `SERIAL` counters. -/
structure DBState where
  rooms : List Room
  products : List Product
  cartItems : List CartItem
  orders : List Order
  orderItems : List OrderItem
  roomBookings : List RoomBooking
  nextCartItemId : Int
  nextOrderId : Int
  nextOrderItemId : Int
  nextBookingId : Int
deriving DecidableEq

/-- Decimal digit accumulation used by `atoi`. -/
def parseDigits : List Char → Nat → Option Nat
  | [], acc => some acc
  | c :: cs, acc =>
    if c.isDigit then parseDigits cs (acc * 10 + (c.toNat - 48)) else none

/-- Go's `strconv.Atoi`: an optional sign followed by at least one decimal
digit; anything else is an error (`none`). -/
def atoi (s : String) : Option Int :=
  match s.data with
  | [] => none
  | c :: cs =>
    if c = '-' then
      if cs.isEmpty then none else (parseDigits cs 0).map (fun n => -(n : Int))
    else if c = '+' then
      if cs.isEmpty then none else (parseDigits cs 0).map (fun n => (n : Int))
    else
      (parseDigits (c :: cs) 0).map (fun n => (n : Int))

/-- The `X-User-ID` header handling shared by every cart/order handler
(part_003 lines 26-35, part_004 lines 80-89): an absent (empty) header is
replaced by `"1"`, then `strconv.Atoi` is applied. -/
def resolveUserId (header : String) : Option Int :=
  let s := if header = "" then "1" else header
  atoi s

/-- Night count as computed in `CartHandler.GetCartItems`
(part_003 lines 94-101): day difference between the parsed dates, then
clamped to a minimum of 1. -/
def getCartItemsNights (checkIn checkOut : Int) : Int :=
  if checkOut - checkIn < 1 then 1 else checkOut - checkIn

/-- Night count as computed in `OrderHandler.CreateOrder`
(part_004 lines 152-157). -/
def createOrderNights (checkIn checkOut : Int) : Int :=
  if checkOut - checkIn < 1 then 1 else checkOut - checkIn

/-- Day number of a proleptic-Gregorian calendar date (years ≥ 1), with the
Unix epoch 1970-01-01 as day 0; lets concrete `YYYY-MM-DD` dates from the
spec's scenarios be evaluated as day numbers. -/
def daysFromCivil (y m d : Nat) : Int :=
  let yAdj := if m ≤ 2 then y - 1 else y
  let era := yAdj / 400
  let yoe := yAdj - era * 400
  let mp := if 2 < m then m - 3 else m + 9
  let doy := (153 * mp + 2) / 5 + d - 1
  let doe := yoe * 365 + yoe / 4 - yoe / 100 + doy
  (era * 146097 + doe : Int) - 719468

/-- The `CASE WHEN` / `LEFT JOIN` of the cart queries (part_003 lines 37-55,
part_004 lines 112-125): the catalog name and unit price joined onto a cart
row, `none` when the join produces NULLs. -/
def lookupCatalog (st : DBState) (itemType : String) (itemId : Int) :
    Option (String × Price) :=
  if itemType = "room" then
    (st.rooms.find? (fun r => r.id = itemId)).map (fun r => (r.title, r.pricePerNight))
  else if itemType = "product" then
    (st.products.find? (fun p => p.id = itemId)).map (fun p => (p.name, p.price))
  else
    none

/-- Request body of `POST /api/cart/add` (part_003 lines 151-157); the two
optional date strings are `Option Int`. -/
structure AddToCartRequest where
  itemType : String
  itemId : Int
  quantity : Int
  checkInDate : Option Int
  checkOutDate : Option Int
deriving DecidableEq

/-- Outcome of `AddToCart`, by HTTP status and payload. -/
inductive AddToCartResult where
  | badRequest (msg : String)
  | notFound
  | created (cartItemId : Int)
  | updated (cartItemId : Int)
deriving DecidableEq

/-- The gin `binding:"required"` check of `AddToCart`: a zero-valued
`item_type`, `item_id` or `quantity` fails validation. -/
def addToCartBindingOk (req : AddToCartRequest) : Bool :=
  req.itemType ≠ "" && req.itemId ≠ 0 && req.quantity ≠ 0

/-- The duplicate-line check of `AddToCart` (part_003 lines 182-196): same
user, item type and item id, and each date component must match exactly when
the request supplies it (a SQL `NULL` request date matches any stored date). -/
def cartRowMatches (userId : Int) (req : AddToCartRequest) (ci : CartItem) : Bool :=
  ci.userId = userId && ci.itemType = req.itemType && ci.itemId = req.itemId &&
  (match req.checkInDate with
   | none => true
   | some d => ci.checkInDate = some d) &&
  (match req.checkOutDate with
   | none => true
   | some d => ci.checkOutDate = some d)

/-- The insert-or-increment step of `AddToCart` (part_003 lines 180-232):
insert a new `cart_items` row when no row matches the request, else add the
request quantity to the first matching row. -/
def addToCartCore (st : DBState) (userId : Int) (req : AddToCartRequest) :
    AddToCartResult × DBState :=
  match st.cartItems.find? (cartRowMatches userId req) with
  | none =>
    let newItem : CartItem :=
      { id := st.nextCartItemId, userId := userId, itemType := req.itemType,
        itemId := req.itemId, quantity := req.quantity,
        checkInDate := req.checkInDate, checkOutDate := req.checkOutDate }
    (.created st.nextCartItemId,
     { st with cartItems := st.cartItems ++ [newItem],
               nextCartItemId := st.nextCartItemId + 1 })
  | some existing =>
    (.updated existing.id,
     { st with cartItems := st.cartItems.map (fun ci =>
         if ci.id = existing.id then { ci with quantity := ci.quantity + req.quantity }
         else ci) })

/-- `CartHandler.AddToCart` (part_003 lines 139-233): resolve the user,
validate the body, check the catalog item exists and is active/available,
then insert or increment via `addToCartCore`. -/
def addToCart (st : DBState) (header : String) (req : AddToCartRequest) :
    AddToCartResult × DBState :=
  match resolveUserId header with
  | none => (.badRequest "Invalid user ID", st)
  | some userId =>
    if ¬ addToCartBindingOk req then
      (.badRequest "binding", st)
    else if req.itemType = "room" then
      if st.rooms.any (fun r => r.id = req.itemId && r.isAvailable) then
        addToCartCore st userId req
      else
        (.notFound, st)
    else if req.itemType = "product" then
      if st.products.any (fun p => p.id = req.itemId && p.isActive) then
        addToCartCore st userId req
      else
        (.notFound, st)
    else
      (.badRequest "Invalid item type. Must be 'room' or 'product'", st)

/-- One entry of the `cart_items` JSON payload of `GET /api/cart`
(part_003 lines 105-124). -/
structure CartLineView where
  id : Int
  itemType : String
  itemId : Int
  itemName : String
  quantity : Int
  unitPrice : Price
  totalPrice : Price
  checkInDate : Option Int
  checkOutDate : Option Int
  nights : Option Int
deriving DecidableEq

/-- Outcome of `GetCartItems`, by HTTP status and payload. -/
inductive GetCartItemsResult where
  | badRequest (msg : String)
  | internalError (msg : String)
  | ok (items : List CartLineView) (totalAmount : Price) (itemCount : Nat) (userId : Int)
deriving DecidableEq

/-- One row of the `GetCartItems` scan loop (part_003 lines 67-127): join the
catalog (NULL name/price makes `Scan` fail, hence `none`), then compute the
line total — nightly price × nights × quantity for a room row with both
dates, unit price × quantity otherwise.  The `nights` payload field is set
only for room rows. -/
def getCartRowView (st : DBState) (ci : CartItem) : Option CartLineView :=
  (lookupCatalog st ci.itemType ci.itemId).map (fun np =>
    match ci.itemType == "room", ci.checkInDate, ci.checkOutDate with
    | true, some a, some b =>
      let nights := getCartItemsNights a b
      { id := ci.id, itemType := ci.itemType, itemId := ci.itemId,
        itemName := np.1, quantity := ci.quantity, unitPrice := np.2,
        totalPrice := np.2 * (nights : Price) * (ci.quantity : Price),
        checkInDate := ci.checkInDate, checkOutDate := ci.checkOutDate,
        nights := some nights }
    | _, _, _ =>
      { id := ci.id, itemType := ci.itemType, itemId := ci.itemId,
        itemName := np.1, quantity := ci.quantity, unitPrice := np.2,
        totalPrice := np.2 * (ci.quantity : Price),
        checkInDate := ci.checkInDate, checkOutDate := ci.checkOutDate,
        nights := if ci.itemType == "room" then some 1 else none })

/-- The `GetCartItems` scan loop over all rows, stopping at the first scan
failure. -/
def getCartRowViews (st : DBState) : List CartItem → Option (List CartLineView)
  | [] => some []
  | ci :: rest =>
    match getCartRowView st ci with
    | none => none
    | some v => (getCartRowViews st rest).map (fun vs => v :: vs)

/-- `CartHandler.GetCartItems` (part_003 lines 24-136): resolve the user,
read the user's cart rows (newest first, per `ORDER BY ci.created_at DESC`),
join and price each row, and return the rows with the accumulated grand
total. -/
def getCartItems (st : DBState) (header : String) : GetCartItemsResult :=
  match resolveUserId header with
  | none => .badRequest "Invalid user ID"
  | some userId =>
    let rows := (st.cartItems.filter (fun ci => ci.userId = userId)).reverse
    match getCartRowViews st rows with
    | none => .internalError "Failed to scan cart item"
    | some views => .ok views ((views.map (fun v => v.totalPrice)).sum) views.length userId

/-- Outcome of the handlers that return only a status. -/
inductive SimpleResult where
  | badRequest (msg : String)
  | notFound
  | ok
deriving DecidableEq

/-- `CartHandler.RemoveFromCart` (part_003 lines 236-269): delete the row
only when it belongs to the caller; 404 when no row was deleted. -/
def removeFromCart (st : DBState) (header : String) (cartItemId : Int) :
    SimpleResult × DBState :=
  match resolveUserId header with
  | none => (.badRequest "Invalid user ID", st)
  | some userId =>
    let remaining := st.cartItems.filter (fun ci => ¬ (ci.id = cartItemId ∧ ci.userId = userId))
    if remaining.length = st.cartItems.length then
      (.notFound, st)
    else
      (.ok, { st with cartItems := remaining })

/-- `CartHandler.ClearCart` (part_003 lines 272-292): delete every cart row
of the caller. -/
def clearCart (st : DBState) (header : String) : SimpleResult × DBState :=
  match resolveUserId header with
  | none => (.badRequest "Invalid user ID", st)
  | some userId =>
    (.ok, { st with cartItems := st.cartItems.filter (fun ci => ¬ ci.userId = userId) })

/-- Request body of `POST /api/orders` (part_004 lines 91-96). -/
structure CreateOrderRequest where
  customerName : String
  customerPhone : String
  customerEmail : String
  notes : String
deriving DecidableEq

/-- Outcome of `CreateOrder`, by HTTP status and payload. -/
inductive CreateOrderResult where
  | badRequest (msg : String)
  | internalError (msg : String)
  | created (orderId : Int) (orderNumber : String) (totalAmount : Price)
deriving DecidableEq

/-- The gin `binding:"required"` check of `CreateOrder`: `customer_name` and
`customer_phone` must be non-empty. -/
def createOrderBindingOk (req : CreateOrderRequest) : Bool :=
  req.customerName ≠ "" && req.customerPhone ≠ ""

/-- One row of the `CreateOrder` pricing loop (part_004 lines 137-168): join
the catalog (NULL makes `Scan` fail), then fill a `models.OrderItem`: for a
room row with both dates set nights, the dates and total = unit price ×
nights × quantity; otherwise total = unit price × quantity and the
item's date fields stay nil.  `id`/`orderId` are zero until insertion. -/
def priceCartRow (st : DBState) (ci : CartItem) : Option OrderItem :=
  (lookupCatalog st ci.itemType ci.itemId).map (fun np =>
    match ci.itemType == "room", ci.checkInDate, ci.checkOutDate with
    | true, some a, some b =>
      let nights := createOrderNights a b
      { id := 0, orderId := 0, itemType := ci.itemType, itemId := ci.itemId,
        itemName := np.1, quantity := ci.quantity, unitPrice := np.2,
        totalPrice := np.2 * (nights : Price) * (ci.quantity : Price),
        checkInDate := some a, checkOutDate := some b, nights := some nights }
    | _, _, _ =>
      { id := 0, orderId := 0, itemType := ci.itemType, itemId := ci.itemId,
        itemName := np.1, quantity := ci.quantity, unitPrice := np.2,
        totalPrice := np.2 * (ci.quantity : Price),
        checkInDate := none, checkOutDate := none, nights := none })

/-- The `CreateOrder` pricing loop over all cart rows, stopping at the first
scan failure. -/
def priceCartRows (st : DBState) : List CartItem → Option (List OrderItem)
  | [] => some []
  | ci :: rest =>
    match priceCartRow st ci with
    | none => none
    | some oi => (priceCartRows st rest).map (fun ois => oi :: ois)

/-- The `CreateOrder` insert loop (part_004 lines 193-216): insert each
order item (assigning the `SERIAL` id and the order id), and for each room
item with both dates also insert a `room_bookings` row with the same stay
range, `guest_count` = the item's quantity and the schema default status
`confirmed` (part_001 line 115).  `failAt` injects a storage failure at the
given statement index; each item owns the two indices `k` (item insert) and
`k+1` (booking insert). -/
def insertOrderItems (failAt : Option Nat) (oid : Int) :
    List OrderItem → Int → Int → Nat →
    Except String (List OrderItem × List RoomBooking × Int × Int × Nat)
  | [], nextItemId, nextBookingId, k => .ok ([], [], nextItemId, nextBookingId, k)
  | item :: rest, nextItemId, nextBookingId, k =>
    if failAt = some k then .error "Failed to create order item"
    else
      let insItem := { item with id := nextItemId, orderId := oid }
      match item.itemType == "room", item.checkInDate, item.checkOutDate with
      | true, some a, some b =>
        if failAt = some (k + 1) then .error "Failed to create room booking"
        else
          let booking : RoomBooking :=
            { id := nextBookingId, roomId := item.itemId, orderId := oid,
              checkInDate := a, checkOutDate := b, guestCount := item.quantity,
              status := "confirmed" }
          (insertOrderItems failAt oid rest (nextItemId + 1) (nextBookingId + 1) (k + 2)).map
            (fun r => (insItem :: r.1, booking :: r.2.1, r.2.2))
      | _, _, _ =>
        (insertOrderItems failAt oid rest (nextItemId + 1) nextBookingId (k + 2)).map
          (fun r => (insItem :: r.1, r.2.1, r.2.2))

/-- The committed effect of a successful `CreateOrder` transaction
(part_004 lines 179-229): the new order row (status = schema default
`pending`, part_001 line 61), the inserted order items and bookings, the
cleared cart of the customer, and the advanced `SERIAL` counters. -/
def commitState (st : DBState) (userId : Int) (req : CreateOrderRequest)
    (orderNumber : String) (totalAmount : Price)
    (newItems : List OrderItem) (newBookings : List RoomBooking)
    (nextItemId nextBookingId : Int) : DBState :=
  { st with
      cartItems := st.cartItems.filter (fun ci => ¬ ci.userId = userId),
      orders := st.orders ++
        [{ id := st.nextOrderId, userId := userId, orderNumber := orderNumber,
           totalAmount := totalAmount, status := "pending",
           customerName := req.customerName, customerPhone := req.customerPhone,
           customerEmail := req.customerEmail, notes := req.notes }],
      orderItems := st.orderItems ++ newItems,
      roomBookings := st.roomBookings ++ newBookings,
      nextOrderId := st.nextOrderId + 1,
      nextOrderItemId := nextItemId,
      nextBookingId := nextBookingId }

/-- `OrderHandler.CreateOrder` (part_004 lines 79-241): resolve the user,
validate the body, then in one transaction read and price the cart, reject
an empty cart, insert the order row (status = schema default `pending`,
part_001 line 61), insert the order items and room bookings, clear the
cart, and commit.  Every error path rolls the transaction back, i.e.
returns the unchanged state.  `now` is the Unix timestamp used for the
order number; `failAt` injects a storage failure at the given statement
(0 = begin, 1 = cart query, 2 = order insert, 3.. = item/booking inserts,
then cart delete and commit). -/
def createOrder (st : DBState) (header : String) (req : CreateOrderRequest)
    (now : Int) (failAt : Option Nat) : CreateOrderResult × DBState :=
  match resolveUserId header with
  | none => (.badRequest "Invalid user ID", st)
  | some userId =>
    if ¬ createOrderBindingOk req then
      (.badRequest "binding", st)
    else if failAt = some 0 then
      (.internalError "Failed to start transaction", st)
    else if failAt = some 1 then
      (.internalError "Failed to fetch cart items", st)
    else
      match priceCartRows st (st.cartItems.filter (fun ci => ci.userId = userId)) with
      | none => (.internalError "Failed to scan cart item", st)
      | some orderItemsList =>
        if orderItemsList.isEmpty then
          (.badRequest "Cart is empty", st)
        else
          let totalAmount := (orderItemsList.map (fun oi => oi.totalPrice)).sum
          let orderNumber := s!"ORD-{now}-{userId}"
          if failAt = some 2 then
            (.internalError "Failed to create order", st)
          else
            match insertOrderItems failAt st.nextOrderId orderItemsList
                st.nextOrderItemId st.nextBookingId 3 with
            | .error msg => (.internalError msg, st)
            | .ok (newItems, newBookings, nextItemId, nextBookingId, k) =>
              if failAt = some k then
                (.internalError "Failed to clear cart", st)
              else if failAt = some (k + 1) then
                (.internalError "Failed to commit transaction", st)
              else
                (.created st.nextOrderId orderNumber totalAmount,
                 commitState st userId req orderNumber totalAmount
                   newItems newBookings nextItemId nextBookingId)

/-- The overlap condition of the `CheckRoomAvailability` SQL query
(rooms.go lines 102-111), on an existing booking `[bIn, bOut)` against the
requested `[reqIn, reqOut)`. -/
def sqlOverlap (reqIn reqOut bIn bOut : Int) : Bool :=
  (bIn ≤ reqIn && bOut > reqIn) ||
  (bIn < reqOut && bOut ≥ reqOut) ||
  (bIn ≥ reqIn && bOut ≤ reqOut)

/-- The `COUNT(*)` of `CheckRoomAvailability` (rooms.go lines 101-114):
bookings of the room in status `confirmed` or `checked_in` that satisfy the
overlap condition. -/
def conflictingBookings (st : DBState) (roomId : Int) (reqIn reqOut : Int) : Nat :=
  (st.roomBookings.filter (fun b =>
    b.roomId = roomId &&
    (b.status = "confirmed" || b.status = "checked_in") &&
    sqlOverlap reqIn reqOut b.checkInDate b.checkOutDate)).length

/-- `RoomHandler.CheckRoomAvailability` (rooms.go lines 89-129): returns
`available = (conflicting count == 0)` together with the count. -/
def checkRoomAvailability (st : DBState) (roomId : Int) (reqIn reqOut : Int) :
    Bool × Nat :=
  let count := conflictingBookings st roomId reqIn reqOut
  (count = 0, count)

/-- Outcome of `UpdateOrderStatus`, by HTTP status and payload. -/
inductive UpdateOrderStatusResult where
  | badRequest (msg : String)
  | notFound
  | ok (orderId : Int) (status : String)
deriving DecidableEq

/-- The status whitelist of `UpdateOrderStatus` (admin.go line 116). -/
def validStatuses : List String := ["pending", "confirmed", "cancelled", "completed"]

/-- `AdminHandler.UpdateOrderStatus` (admin.go lines 97-157): validate the
status, update the order's status and notes (404 when no row is affected),
and when the new status is `cancelled` set every `room_bookings` row of the
order to `cancelled`. -/
def updateOrderStatus (st : DBState) (orderId : Int) (status notes : String) :
    UpdateOrderStatusResult × DBState :=
  if status = "" then
    (.badRequest "binding", st)
  else if ¬ validStatuses.contains status then
    (.badRequest "Invalid status. Must be one of: pending, confirmed, cancelled, completed", st)
  else if st.orders.any (fun o => o.id = orderId) then
    let st1 := { st with orders := st.orders.map (fun o =>
      if o.id = orderId then { o with status := status, notes := notes } else o) }
    let st2 :=
      if status = "cancelled" then
        { st1 with roomBookings := st1.roomBookings.map (fun b =>
            if b.orderId = orderId then { b with status := "cancelled" } else b) }
      else st1
    (.ok orderId status, st2)
  else
    (.notFound, st)

/-- Sample `rooms` rows inserted by the migration (part_001 lines 139-145). -/
def sampleRooms : List Room :=
  [{ id := 1, title := "Cozy Single Room", pricePerNight := 8999 / 100, isAvailable := true },
   { id := 2, title := "Deluxe Double Room", pricePerNight := 14999 / 100, isAvailable := true },
   { id := 3, title := "Presidential Suite", pricePerNight := 29999 / 100, isAvailable := true }]

/-- Sample `products` rows inserted by the migration (part_001 lines 148-153). -/
def sampleProducts : List Product :=
  [{ id := 1, name := "Hotel T-Shirt", price := 2499 / 100, isActive := true },
   { id := 2, name := "Local Coffee Beans", price := 1899 / 100, isActive := true },
   { id := 3, name := "Spa Voucher", price := 8999 / 100, isActive := true },
   { id := 4, name := "City Guide Book", price := 1599 / 100, isActive := true },
   { id := 5, name := "Breakfast Package", price := 2999 / 100, isActive := true }]

/-- The database right after the migration (part_001): sample catalog rows,
empty cart/order/booking tables, all `SERIAL` counters at 1. -/
def initialState : DBState :=
  { rooms := sampleRooms, products := sampleProducts, cartItems := [],
    orders := [], orderItems := [], roomBookings := [],
    nextCartItemId := 1, nextOrderId := 1, nextOrderItemId := 1, nextBookingId := 1 }

/-- States reachable from the migrated database through the cart-store
operations (`AddToCart`, `RemoveFromCart`, `ClearCart`), with arbitrary
request bodies. -/
inductive CartReachable : DBState → Prop where
  | init : CartReachable initialState
  | add (st : DBState) (header : String) (req : AddToCartRequest) :
      CartReachable st → CartReachable (addToCart st header req).2
  | remove (st : DBState) (header : String) (cartItemId : Int) :
      CartReachable st → CartReachable (removeFromCart st header cartItemId).2
  | clear (st : DBState) (header : String) :
      CartReachable st → CartReachable (clearCart st header).2

/-- States reachable through the cart-store operations when every
`AddToCart` request carries a quantity ≥ 1. -/
inductive CartReachablePos : DBState → Prop where
  | init : CartReachablePos initialState
  | add (st : DBState) (header : String) (req : AddToCartRequest) :
      1 ≤ req.quantity → CartReachablePos st → CartReachablePos (addToCart st header req).2
  | remove (st : DBState) (header : String) (cartItemId : Int) :
      CartReachablePos st → CartReachablePos (removeFromCart st header cartItemId).2
  | clear (st : DBState) (header : String) :
      CartReachablePos st → CartReachablePos (clearCart st header).2

/-- A booking of room 1 spanning 2025-06-03 → 2025-06-06, status
`confirmed`. -/
def bookingJun3 : RoomBooking :=
  { id := 1, roomId := 1, orderId := 1, checkInDate := daysFromCivil 2025 6 3,
    checkOutDate := daysFromCivil 2025 6 6, guestCount := 1, status := "confirmed" }

/-- A booking of room 1 spanning 2025-06-05 → 2025-06-08 (adjacent to a
request ending 2025-06-05), status `confirmed`. -/
def bookingJun5 : RoomBooking :=
  { id := 1, roomId := 1, orderId := 1, checkInDate := daysFromCivil 2025 6 5,
    checkOutDate := daysFromCivil 2025 6 8, guestCount := 1, status := "confirmed" }

/-- A well-formed demo checkout request body. -/
def reqA : CreateOrderRequest :=
  { customerName := "Ann", customerPhone := "0123", customerEmail := "", notes := "" }

/-- The migrated database plus one cart line of user 1: product 1 (price
24.99), quantity 2. -/
def stW : DBState :=
  { initialState with
      cartItems := [{ id := 1, userId := 1, itemType := "product", itemId := 1,
                      quantity := 2, checkInDate := none, checkOutDate := none }],
      nextCartItemId := 2 }

/-- The migrated database plus one cart line of user 1: room 1, quantity 1,
with no stay dates. -/
def stRmND : DBState :=
  { initialState with
      cartItems := [{ id := 1, userId := 1, itemType := "room", itemId := 1,
                      quantity := 1, checkInDate := none, checkOutDate := none }],
      nextCartItemId := 2 }

/-- The section-8 scenario: room 7 (nightly rate 150.00) in the cart for
[2025-07-01, 2025-07-03) quantity 1, plus product 3 (price 10.00)
quantity 2. -/
def stS8 : DBState :=
  { rooms := [{ id := 7, title := "Garden Suite", pricePerNight := 150, isAvailable := true }],
    products := [{ id := 3, name := "Postcard Set", price := 10, isActive := true }],
    cartItems :=
      [{ id := 1, userId := 1, itemType := "room", itemId := 7, quantity := 1,
         checkInDate := some (daysFromCivil 2025 7 1),
         checkOutDate := some (daysFromCivil 2025 7 3) },
       { id := 2, userId := 1, itemType := "product", itemId := 3, quantity := 2,
         checkInDate := none, checkOutDate := none }],
    orders := [], orderItems := [], roomBookings := [],
    nextCartItemId := 3, nextOrderId := 1, nextOrderItemId := 1, nextBookingId := 1 }

/-- A database with one confirmed order (id 1) of user 1 and one confirmed
booking for that order. -/
def stC9 : DBState :=
  { initialState with
      orders := [{ id := 1, userId := 1, orderNumber := "ORD-1-1", totalAmount := 100,
                   status := "confirmed", customerName := "Ann", customerPhone := "0123",
                   customerEmail := "", notes := "" }],
      roomBookings := [{ id := 1, roomId := 1, orderId := 1,
                         checkInDate := daysFromCivil 2025 6 1,
                         checkOutDate := daysFromCivil 2025 6 4,
                         guestCount := 2, status := "confirmed" }],
      nextOrderId := 2, nextBookingId := 2 }

/-- Whether an order line is a room line with both stay dates present —
the condition under which `CreateOrder` inserts a booking (part_004
line 205). -/
def isRoomDated (oi : OrderItem) : Bool :=
  oi.itemType == "room" && oi.checkInDate.isSome && oi.checkOutDate.isSome

/-- The pricing formula the spec asserts per order line: unit price × nights
× quantity for a room line with both stay dates, unit price × quantity
otherwise. -/
def lineTotalOk (oi : OrderItem) : Bool :=
  match oi.itemType == "room", oi.checkInDate, oi.checkOutDate with
  | true, some a, some b =>
    oi.totalPrice = oi.unitPrice * (createOrderNights a b : Price) * (oi.quantity : Price)
  | _, _, _ =>
    oi.totalPrice = oi.unitPrice * (oi.quantity : Price)

/-- The booking columns relevant to the spec: room, stay range, guest count
and status. -/
def bookingAttrs (b : RoomBooking) : Int × Int × Int × Int × String :=
  (b.roomId, b.checkInDate, b.checkOutDate, b.guestCount, b.status)

/-- The booking columns a room-dated order line should give rise to. -/
def bookingOfItem (oi : OrderItem) : Int × Int × Int × Int × String :=
  (oi.itemId, oi.checkInDate.getD 0, oi.checkOutDate.getD 0, oi.quantity, "confirmed")

/-! ### Theorems -/

/-- C4: for a room line with both stay-range endpoints, the nights value
used by `GetCartItems` and the one used by `CreateOrder` are the same and
equal the day-difference between check-out and check-in floored at a
minimum of 1; 2025-06-01 → 2025-06-04 gives 3 nights, and a check-in equal
to or after the check-out gives 1 night. -/
theorem nights_clamped_day_difference :
    (∀ a b : Int, getCartItemsNights a b = createOrderNights a b) ∧
    (∀ a b : Int, createOrderNights a b = max 1 (b - a)) ∧
    createOrderNights (daysFromCivil 2025 6 1) (daysFromCivil 2025 6 4) = 3 ∧
    getCartItemsNights (daysFromCivil 2025 6 1) (daysFromCivil 2025 6 4) = 3 ∧
    (∀ a b : Int, b ≤ a → getCartItemsNights a b = 1 ∧ createOrderNights a b = 1) := by
  refine ⟨fun a b => rfl, fun a b => ?_, by decide, by decide, fun a b h => ?_⟩
  · unfold createOrderNights
    rcases lt_or_ge (b - a) 1 with h | h
    · rw [if_pos h, max_eq_left (show b - a ≤ (1 : Int) by omega)]
    · rw [if_neg (by omega), max_eq_right (show (1 : Int) ≤ b - a by omega)]
  · exact ⟨by unfold getCartItemsNights; rw [if_pos (by omega)],
           by unfold createOrderNights; rw [if_pos (by omega)]⟩

/-- Witness for C4 at check-in day 5, check-out day 3 (inverted range). -/
theorem nights_clamped_day_difference_witness :
    getCartItemsNights 5 3 = 1 ∧ createOrderNights 5 3 = 1 :=
  nights_clamped_day_difference.2.2.2.2 5 3 (by decide)

/-- For well-formed (non-empty, half-open) ranges, the three-clause SQL
overlap condition of `CheckRoomAvailability` is the standard half-open
interval overlap. -/
theorem sqlOverlap_iff (reqIn reqOut bIn bOut : Int)
    (hreq : reqIn < reqOut) (hb : bIn < bOut) :
    sqlOverlap reqIn reqOut bIn bOut = true ↔ (reqIn < bOut ∧ bIn < reqOut) := by
  simp only [sqlOverlap, Bool.or_eq_true, Bool.and_eq_true, decide_eq_true_eq]
  omega

/-- C5: `CheckAvailability` reports a room available iff no booking for
that room in status `confirmed` or `checked_in` overlaps the requested
range under half-open semantics ([a,b) and [c,d) overlap iff a < d and
c < b), assuming the requested range and the room's stored bookings are
well-formed half-open ranges. -/
theorem checkRoomAvailability_iff_no_overlap (st : DBState) (roomId : Int)
    (reqIn reqOut : Int) (hreq : reqIn < reqOut)
    (hwf : ∀ b ∈ st.roomBookings, b.roomId = roomId → b.checkInDate < b.checkOutDate) :
    ((checkRoomAvailability st roomId reqIn reqOut).1 = true ↔
      ∀ b ∈ st.roomBookings, b.roomId = roomId →
        (b.status = "confirmed" ∨ b.status = "checked_in") →
        ¬ (reqIn < b.checkOutDate ∧ b.checkInDate < reqOut)) := by
  simp only [checkRoomAvailability, conflictingBookings, decide_eq_true_eq]
  rw [List.length_eq_zero, List.filter_eq_nil_iff]
  constructor
  · intro h b hb hid hst hov
    refine h b hb ?_
    simp only [Bool.and_eq_true, Bool.or_eq_true, decide_eq_true_eq]
    exact ⟨⟨hid, hst⟩, (sqlOverlap_iff reqIn reqOut b.checkInDate b.checkOutDate hreq
      (hwf b hb hid)).mpr hov⟩
  · intro h b hb hc
    simp only [Bool.and_eq_true, Bool.or_eq_true, decide_eq_true_eq] at hc
    obtain ⟨⟨hid, hst⟩, hov⟩ := hc
    exact h b hb hid hst ((sqlOverlap_iff reqIn reqOut b.checkInDate b.checkOutDate hreq
      (hwf b hb hid)).mp hov)

/-- Witness for C5: requesting room 1 for [2025-06-01, 2025-06-05) is
unavailable against the overlapping booking [2025-06-03, 2025-06-06) and
available against the adjacent booking [2025-06-05, 2025-06-08). -/
theorem checkRoomAvailability_witness :
    (checkRoomAvailability { initialState with roomBookings := [bookingJun3] } 1
      (daysFromCivil 2025 6 1) (daysFromCivil 2025 6 5)).1 = false ∧
    (checkRoomAvailability { initialState with roomBookings := [bookingJun5] } 1
      (daysFromCivil 2025 6 1) (daysFromCivil 2025 6 5)).1 = true := by
  refine ⟨by decide, ?_⟩
  exact (checkRoomAvailability_iff_no_overlap
    { initialState with roomBookings := [bookingJun5] } 1
    (daysFromCivil 2025 6 1) (daysFromCivil 2025 6 5) (by decide)
    (by decide)).mpr (by decide)

/-- Inversion of a successful insert loop: the inserted order items carry
the order id and the priced fields of the inputs, and the inserted bookings
correspond one-to-one (same order) to the room-dated items. -/
theorem insertOrderItems_ok_spec (failAt : Option Nat) (oid : Int) :
    ∀ (items : List OrderItem) (nI nB : Int) (k : Nat)
      (newItems : List OrderItem) (newBookings : List RoomBooking)
      (nI' nB' : Int) (k' : Nat),
      insertOrderItems failAt oid items nI nB k = .ok (newItems, newBookings, nI', nB', k') →
      newItems.map (fun oi => oi.totalPrice) = items.map (fun oi => oi.totalPrice) ∧
      (∀ oi ∈ newItems, oi.orderId = oid) ∧
      (∀ oi ∈ newItems, ∃ i ∈ items, lineTotalOk oi = lineTotalOk i) ∧
      newBookings.map bookingAttrs = (newItems.filter isRoomDated).map bookingOfItem ∧
      (∀ b ∈ newBookings, b.orderId = oid) := by
  intro items
  induction items with
  | nil =>
    intro nI nB k newItems newBookings nI' nB' k' h
    simp only [insertOrderItems, Except.ok.injEq, Prod.mk.injEq] at h
    obtain ⟨h1, h2, -⟩ := h
    subst h1; subst h2
    simp
  | cons item rest ih =>
    intro nI nB k newItems newBookings nI' nB' k' h
    simp only [insertOrderItems] at h
    by_cases hf : failAt = some k
    · rw [if_pos hf] at h; simp at h
    rw [if_neg hf] at h
    cases hroom : item.itemType == "room"
    · -- item is not a room line
      simp only [hroom] at h
      rcases hrec : insertOrderItems failAt oid rest (nI + 1) nB (k + 2) with msg | ⟨ni, nb, w1, w2, w3⟩
      · rw [hrec] at h; simp [Except.map] at h
      · rw [hrec] at h
        simp only [Except.map, Except.ok.injEq, Prod.mk.injEq] at h
        obtain ⟨hni, hnb, -⟩ := h
        obtain ⟨ihm, ihid, ihok, ihbk, ihbid⟩ := ih (nI + 1) nB (k + 2) ni nb w1 w2 w3 hrec
        subst hni; subst hnb
        refine ⟨by simp [ihm], ?_, ?_, ?_, ihbid⟩
        · intro oi hoi
          rcases List.mem_cons.mp hoi with hh | hh
          · subst hh; rfl
          · exact ihid oi hh
        · intro oi hoi
          rcases List.mem_cons.mp hoi with hh | hh
          · exact ⟨item, List.mem_cons_self item rest, by subst hh; simp [lineTotalOk, hroom]⟩
          · obtain ⟨i, hi, hlt⟩ := ihok oi hh
            exact ⟨i, List.mem_cons_of_mem item hi, hlt⟩
        · simp [List.filter_cons, isRoomDated, hroom, ihbk]
    · -- item is a room line
      cases hin : item.checkInDate
      · -- no check-in date
        simp only [hroom, hin] at h
        rcases hrec : insertOrderItems failAt oid rest (nI + 1) nB (k + 2) with msg | ⟨ni, nb, w1, w2, w3⟩
        · rw [hrec] at h; simp [Except.map] at h
        · rw [hrec] at h
          simp only [Except.map, Except.ok.injEq, Prod.mk.injEq] at h
          obtain ⟨hni, hnb, -⟩ := h
          obtain ⟨ihm, ihid, ihok, ihbk, ihbid⟩ := ih (nI + 1) nB (k + 2) ni nb w1 w2 w3 hrec
          subst hni; subst hnb
          refine ⟨by simp [ihm], ?_, ?_, ?_, ihbid⟩
          · intro oi hoi
            rcases List.mem_cons.mp hoi with hh | hh
            · subst hh; rfl
            · exact ihid oi hh
          · intro oi hoi
            rcases List.mem_cons.mp hoi with hh | hh
            · exact ⟨item, List.mem_cons_self item rest, by subst hh; simp [lineTotalOk, hroom, hin]⟩
            · obtain ⟨i, hi, hlt⟩ := ihok oi hh
              exact ⟨i, List.mem_cons_of_mem item hi, hlt⟩
          · simp [List.filter_cons, isRoomDated, hroom, ihbk]
      · rename_i a
        cases hout : item.checkOutDate
        · -- no check-in date
          simp only [hroom, hin, hout] at h
          rcases hrec : insertOrderItems failAt oid rest (nI + 1) nB (k + 2) with msg | ⟨ni, nb, w1, w2, w3⟩
          · rw [hrec] at h; simp [Except.map] at h
          · rw [hrec] at h
            simp only [Except.map, Except.ok.injEq, Prod.mk.injEq] at h
            obtain ⟨hni, hnb, -⟩ := h
            obtain ⟨ihm, ihid, ihok, ihbk, ihbid⟩ := ih (nI + 1) nB (k + 2) ni nb w1 w2 w3 hrec
            subst hni; subst hnb
            refine ⟨by simp [ihm], ?_, ?_, ?_, ihbid⟩
            · intro oi hoi
              rcases List.mem_cons.mp hoi with hh | hh
              · subst hh; rfl
              · exact ihid oi hh
            · intro oi hoi
              rcases List.mem_cons.mp hoi with hh | hh
              · exact ⟨item, List.mem_cons_self item rest, by subst hh; simp [lineTotalOk, hroom, hin, hout]⟩
              · obtain ⟨i, hi, hlt⟩ := ihok oi hh
                exact ⟨i, List.mem_cons_of_mem item hi, hlt⟩
            · simp [List.filter_cons, isRoomDated, hroom, ihbk]
        · rename_i b
          simp only [hroom, hin, hout] at h
          by_cases hf2 : failAt = some (k + 1)
          · rw [if_pos hf2] at h; simp at h
          rw [if_neg hf2] at h
          rcases hrec : insertOrderItems failAt oid rest (nI + 1) (nB + 1) (k + 2) with msg | ⟨ni, nb, w1, w2, w3⟩
          · rw [hrec] at h; simp [Except.map] at h
          · rw [hrec] at h
            simp only [Except.map, Except.ok.injEq, Prod.mk.injEq] at h
            obtain ⟨hni, hnb, -⟩ := h
            obtain ⟨ihm, ihid, ihok, ihbk, ihbid⟩ := ih (nI + 1) (nB + 1) (k + 2) ni nb w1 w2 w3 hrec
            subst hni; subst hnb
            refine ⟨by simp [ihm], ?_, ?_, ?_, ?_⟩
            · intro oi hoi
              rcases List.mem_cons.mp hoi with hh | hh
              · subst hh; rfl
              · exact ihid oi hh
            · intro oi hoi
              rcases List.mem_cons.mp hoi with hh | hh
              · exact ⟨item, List.mem_cons_self item rest, by subst hh; simp [lineTotalOk, hroom, hin, hout]⟩
              · obtain ⟨i, hi, hlt⟩ := ihok oi hh
                exact ⟨i, List.mem_cons_of_mem item hi, hlt⟩
            · simp [List.filter_cons, isRoomDated, hroom, ihbk, bookingAttrs, bookingOfItem]
            · intro bk hbk
              rcases List.mem_cons.mp hbk with hh | hh
              · subst hh; rfl
              · exact ihbid bk hh

/-- Every priced row satisfies the per-line pricing formula. -/
theorem priceCartRow_lineTotalOk (st : DBState) (ci : CartItem) (oi : OrderItem)
    (h : priceCartRow st ci = some oi) : lineTotalOk oi = true := by
  unfold priceCartRow at h
  rcases hl : lookupCatalog st ci.itemType ci.itemId with _ | np
  · rw [hl] at h; simp at h
  · rw [hl] at h
    simp only [Option.map_some'] at h
    cases hroom : ci.itemType == "room"
    · simp only [hroom, Option.some.injEq] at h
      subst h
      simp [lineTotalOk, hroom]
    · cases hin : ci.checkInDate
      · simp only [hroom, hin, Option.some.injEq] at h
        subst h
        simp [lineTotalOk, hroom]
      · rename_i a
        cases hout : ci.checkOutDate
        · simp only [hroom, hin, hout, Option.some.injEq] at h
          subst h
          simp [lineTotalOk, hroom]
        · rename_i b
          simp only [hroom, hin, hout, Option.some.injEq] at h
          subst h
          simp [lineTotalOk, hroom]

/-- Every item produced by the pricing loop satisfies the per-line pricing
formula. -/
theorem priceCartRows_all_lineTotalOk (st : DBState) :
    ∀ (l : List CartItem) (items : List OrderItem),
      priceCartRows st l = some items → ∀ oi ∈ items, lineTotalOk oi = true := by
  intro l
  induction l with
  | nil =>
    intro items h oi hoi
    simp only [priceCartRows, Option.some.injEq] at h
    subst h
    simp at hoi
  | cons ci rest ih =>
    intro items h oi hoi
    simp only [priceCartRows] at h
    rcases hp : priceCartRow st ci with _ | x
    · rw [hp] at h; simp at h
    · rw [hp] at h
      rcases hr : priceCartRows st rest with _ | xs
      · rw [hr] at h; simp at h
      · rw [hr] at h
        simp only [Option.map_some', Option.some.injEq] at h
        subst h
        rcases List.mem_cons.mp hoi with hh | hh
        · subst hh; exact priceCartRow_lineTotalOk st ci oi hp
        · exact ih xs hr oi hh

/-- Inversion of a successful checkout: the success branch of `createOrder`
was taken, so the cart priced to a non-empty item list, the insert loop
succeeded, and the final state is the committed state. -/
theorem createOrder_created_inv (st : DBState) (header : String) (req : CreateOrderRequest)
    (now : Int) (failAt : Option Nat) (oid : Int) (onum : String) (total : Price)
    (hres : (createOrder st header req now failAt).1 = .created oid onum total) :
    ∃ (uid : Int) (items newItems : List OrderItem) (newBookings : List RoomBooking)
      (nextI nextB : Int) (k : Nat),
      resolveUserId header = some uid ∧
      priceCartRows st (st.cartItems.filter (fun ci => ci.userId = uid)) = some items ∧
      items ≠ [] ∧
      insertOrderItems failAt st.nextOrderId items st.nextOrderItemId st.nextBookingId 3 =
        .ok (newItems, newBookings, nextI, nextB, k) ∧
      oid = st.nextOrderId ∧
      total = (items.map (fun oi => oi.totalPrice)).sum ∧
      (createOrder st header req now failAt).2 =
        commitState st uid req onum total newItems newBookings nextI nextB := by
  rcases huid : resolveUserId header with _ | uid
  · simp [createOrder, huid] at hres
  by_cases hbind : createOrderBindingOk req = true
  case neg => simp [createOrder, huid, hbind] at hres
  by_cases hf0 : failAt = some 0
  · simp [createOrder, huid, hbind, hf0] at hres
  by_cases hf1 : failAt = some 1
  · simp [createOrder, huid, hbind, hf0, hf1] at hres
  rcases hpr : priceCartRows st (st.cartItems.filter (fun ci => ci.userId = uid)) with _ | items
  · simp [createOrder, huid, hbind, hf0, hf1, hpr] at hres
  by_cases hemp : items.isEmpty = true
  · simp [createOrder, huid, hbind, hf0, hf1, hpr, hemp] at hres
  by_cases hf2 : failAt = some 2
  · simp [createOrder, huid, hbind, hf0, hf1, hpr, hemp, hf2] at hres
  rcases hins : insertOrderItems failAt st.nextOrderId items st.nextOrderItemId st.nextBookingId 3
    with msg | ⟨ni, nb, w1, w2, w3⟩
  · simp [createOrder, huid, hbind, hf0, hf1, hpr, hemp, hf2, hins] at hres
  by_cases hfc : failAt = some w3
  · rw [hfc] at hins hf0 hf1 hf2
    simp [createOrder, huid, hbind, hf0, hf1, hpr, hemp, hf2, hins, hfc] at hres
  by_cases hfm : failAt = some (w3 + 1)
  · rw [hfm] at hins hf0 hf1 hf2
    simp [createOrder, huid, hbind, hf0, hf1, hpr, hemp, hf2, hins, hfm] at hres
  have hrun : createOrder st header req now failAt =
      (.created st.nextOrderId (s!"ORD-{now}-{uid}") ((items.map (fun oi => oi.totalPrice)).sum),
       commitState st uid req (s!"ORD-{now}-{uid}") ((items.map (fun oi => oi.totalPrice)).sum)
         ni nb w1 w2) := by
    simp [createOrder, huid, hbind, hf0, hf1, hpr, hemp, hf2, hins, hfc, hfm]
  rw [hrun] at hres
  simp only [CreateOrderResult.created.injEq] at hres
  obtain ⟨hoid, honum, htotal⟩ := hres
  refine ⟨uid, items, ni, nb, w1, w2, w3, rfl, hpr, by simpa using hemp, hins, hoid.symm,
    htotal.symm, ?_⟩
  rw [hrun, ← honum, ← htotal]

/-- Deleting a customer's rows then selecting them yields nothing. -/
theorem filter_not_filter_self (l : List CartItem) (uid : Int) :
    (l.filter (fun ci => ¬ ci.userId = uid)).filter (fun ci => ci.userId = uid) = [] := by
  rw [List.filter_eq_nil_iff]
  intro ci hci
  have h := (List.mem_filter.mp hci).2
  simp at h ⊢
  exact h

/-- `createOrder` either leaves the state unchanged (every rollback path)
or reports a created order. -/
theorem createOrder_result_cases (st : DBState) (header : String) (req : CreateOrderRequest)
    (now : Int) (failAt : Option Nat) :
    (createOrder st header req now failAt).2 = st ∨
    ∃ (oid : Int) (onum : String) (total : Price),
      (createOrder st header req now failAt).1 = .created oid onum total := by
  unfold createOrder
  repeat' first
  | (left; rfl)
  | (right; exact ⟨_, _, _, rfl⟩)
  | split

/-- Everything true of the state after a successful checkout: the order row
exists with the reported total, its lines are exactly the inserted ones and
sum to the total, each line satisfies the pricing formula, the bookings
correspond one-to-one to the room-dated lines, and the customer's cart is
empty. -/
theorem checkout_success_spec (st : DBState) (header : String) (req : CreateOrderRequest)
    (now : Int) (failAt : Option Nat) (res : CreateOrderResult) (st' : DBState)
    (oid : Int) (onum : String) (total : Price)
    (hrun : createOrder st header req now failAt = (res, st'))
    (hres : res = .created oid onum total)
    (hfreshI : ∀ oi ∈ st.orderItems, oi.orderId ≠ st.nextOrderId)
    (hfreshB : ∀ b ∈ st.roomBookings, b.orderId ≠ st.nextOrderId) :
    ∃ uid : Int,
      resolveUserId header = some uid ∧
      oid = st.nextOrderId ∧
      (∃ o ∈ st'.orders, o.id = oid ∧ o.totalAmount = total) ∧
      st'.orderItems.filter (fun oi => oi.orderId = oid) ≠ [] ∧
      ((st'.orderItems.filter (fun oi => oi.orderId = oid)).map (fun oi => oi.totalPrice)).sum = total ∧
      (∀ oi ∈ st'.orderItems.filter (fun oi => oi.orderId = oid), lineTotalOk oi = true) ∧
      ((st'.roomBookings.filter (fun b => b.orderId = oid)).map bookingAttrs =
        (st'.orderItems.filter (fun oi => oi.orderId = oid && isRoomDated oi)).map bookingOfItem) ∧
      st'.cartItems.filter (fun ci => ci.userId = uid) = [] := by
  subst hres
  have h1 : (createOrder st header req now failAt).1 = .created oid onum total := by rw [hrun]
  obtain ⟨uid, items, ni, nb, w1, w2, w3, huid, hpr, hne, hins, hoid, htotal, hst⟩ :=
    createOrder_created_inv st header req now failAt oid onum total h1
  obtain ⟨ihm, ihid, ihok, ihbk, ihbid⟩ :=
    insertOrderItems_ok_spec failAt st.nextOrderId items st.nextOrderItemId st.nextBookingId 3
      ni nb w1 w2 w3 hins
  have hlt := priceCartRows_all_lineTotalOk st _ items hpr
  have hst2 : st' = commitState st uid req onum total ni nb w1 w2 := by
    rw [← hst, hrun]
  subst hoid
  subst hst2
  have hfilI : (commitState st uid req onum total ni nb w1 w2).orderItems.filter
      (fun oi => oi.orderId = st.nextOrderId) = ni := by
    simp only [commitState]
    rw [List.filter_append,
      List.filter_eq_nil_iff.mpr (fun oi hoi => by simpa using hfreshI oi hoi),
      List.filter_eq_self.mpr (fun oi hoi => by simpa using ihid oi hoi)]
    simp
  have hni : ni ≠ [] := by
    intro hh
    apply hne
    rw [hh] at ihm
    exact List.map_eq_nil_iff.mp ihm.symm
  refine ⟨uid, huid, rfl, ?_, ?_, ?_, ?_, ?_, ?_⟩
  · exact ⟨_, List.mem_append_right _ (List.mem_singleton.mpr rfl), rfl, rfl⟩
  · rw [hfilI]; exact hni
  · rw [hfilI, ihm]; exact htotal.symm
  · rw [hfilI]
    intro oi hoi
    obtain ⟨i, hi, heq⟩ := ihok oi hoi
    rw [heq]
    exact hlt i hi
  · have hfilB : (commitState st uid req onum total ni nb w1 w2).roomBookings.filter
        (fun b => b.orderId = st.nextOrderId) = nb := by
      simp only [commitState]
      rw [List.filter_append,
        List.filter_eq_nil_iff.mpr (fun b hb => by simpa using hfreshB b hb),
        List.filter_eq_self.mpr (fun b hb => by simpa using ihbid b hb)]
      simp
    have hnil2 : st.orderItems.filter
        (fun oi => oi.orderId = st.nextOrderId && isRoomDated oi) = [] := by
      rw [List.filter_eq_nil_iff]
      intro oi hoi
      simp only [Bool.and_eq_true, decide_eq_true_eq, not_and]
      intro hx
      exact absurd hx (hfreshI oi hoi)
    have hcongr2 : ni.filter (fun oi => oi.orderId = st.nextOrderId && isRoomDated oi) =
        ni.filter isRoomDated :=
      List.filter_congr (fun oi hoi => by simp [ihid oi hoi])
    have hfilI2 : (commitState st uid req onum total ni nb w1 w2).orderItems.filter
        (fun oi => oi.orderId = st.nextOrderId && isRoomDated oi) = ni.filter isRoomDated := by
      simp only [commitState]
      rw [List.filter_append, hnil2, hcongr2]
      simp
    rw [hfilB, hfilI2]
    exact ihbk
  · simp only [commitState]
    exact filter_not_filter_self _ _


/-- C10: an absent `X-User-ID` header resolves to the default user id 1,
and every embedded cart/order handler behaves on an absent header exactly
as it does for user 1. -/
theorem missing_user_header_defaults_to_user_one :
    resolveUserId "" = some 1 ∧
    (∀ st : DBState, getCartItems st "" = getCartItems st "1") ∧
    (∀ (st : DBState) (req : AddToCartRequest),
      addToCart st "" req = addToCart st "1" req) ∧
    (∀ (st : DBState) (cid : Int),
      removeFromCart st "" cid = removeFromCart st "1" cid) ∧
    (∀ st : DBState, clearCart st "" = clearCart st "1") ∧
    (∀ (st : DBState) (req : CreateOrderRequest) (now : Int) (failAt : Option Nat),
      createOrder st "" req now failAt = createOrder st "1" req now failAt) := by
  have e1 : resolveUserId "" = some 1 := by decide
  have e2 : resolveUserId "1" = some 1 := by decide
  exact ⟨e1,
    fun st => by simp only [getCartItems, e1, e2],
    fun st req => by simp only [addToCart, e1, e2],
    fun st cid => by simp only [removeFromCart, e1, e2],
    fun st => by simp only [clearCart, e1, e2],
    fun st req now failAt => by simp only [createOrder, e1, e2]⟩

/-- C3: checkout for a customer whose cart is empty fails with HTTP 400
"Cart is empty" and returns the storage entirely unchanged. -/
theorem empty_cart_checkout_rejected (st : DBState) (header : String)
    (req : CreateOrderRequest) (now uid : Int)
    (huid : resolveUserId header = some uid)
    (hbind : createOrderBindingOk req = true)
    (hempty : st.cartItems.filter (fun ci => ci.userId = uid) = []) :
    createOrder st header req now none = (.badRequest "Cart is empty", st) := by
  simp [createOrder, huid, hbind, hempty, priceCartRows]

/-- Witness for C3: checkout on the freshly migrated database (whose carts
are all empty) with an absent identity header. -/
theorem empty_cart_checkout_rejected_witness :
    createOrder initialState "" reqA 0 none = (.badRequest "Cart is empty", initialState) :=
  empty_cart_checkout_rejected initialState "" reqA 0 1 (by decide) (by decide) (by decide)

/-- C1: a successful checkout creates an order whose `total_amount` equals
the sum of the `total_price` of the order lines it inserts, each line's
total follows the pricing formula (unit price × nights × quantity for a
room line with both stay dates, unit price × quantity otherwise), and the
customer's cart is empty afterwards.  The freshness hypotheses state the
`SERIAL` invariant that no existing row already carries the next order id. -/
theorem checkout_total_equals_sum_of_lines
    (st : DBState) (header : String) (req : CreateOrderRequest) (now : Int)
    (res : CreateOrderResult) (st' : DBState) (oid uid : Int) (onum : String) (total : Price)
    (hrun : createOrder st header req now none = (res, st'))
    (hres : res = .created oid onum total)
    (huid : resolveUserId header = some uid)
    (hfreshI : ∀ oi ∈ st.orderItems, oi.orderId ≠ st.nextOrderId)
    (hfreshB : ∀ b ∈ st.roomBookings, b.orderId ≠ st.nextOrderId) :
    (∃ o ∈ st'.orders, o.id = oid ∧ o.totalAmount = total) ∧
    st'.orderItems.filter (fun oi => oi.orderId = oid) ≠ [] ∧
    ((st'.orderItems.filter (fun oi => oi.orderId = oid)).map (fun oi => oi.totalPrice)).sum = total ∧
    (∀ oi ∈ st'.orderItems.filter (fun oi => oi.orderId = oid), lineTotalOk oi = true) ∧
    st'.cartItems.filter (fun ci => ci.userId = uid) = [] := by
  obtain ⟨uid', huid', -, ho, hne, hsum, hok, -, hcart⟩ :=
    checkout_success_spec st header req now none res st' oid onum total hrun hres hfreshI hfreshB
  have heq : uid' = uid := by
    rw [huid] at huid'
    exact (Option.some.inj huid').symm
  subst heq
  exact ⟨ho, hne, hsum, hok, hcart⟩

/-- Witness for C1: checking out a cart holding product 1 (price 24.99)
with quantity 2 creates order 1 with total 49.98 = the sum of its lines,
and empties user 1's cart. -/
theorem checkout_total_equals_sum_of_lines_witness :
    (∃ o ∈ (createOrder stW "" reqA 5 none).2.orders, o.id = 1 ∧ o.totalAmount = 4998 / 100) ∧
    (createOrder stW "" reqA 5 none).2.orderItems.filter (fun oi => oi.orderId = 1) ≠ [] ∧
    (((createOrder stW "" reqA 5 none).2.orderItems.filter (fun oi => oi.orderId = 1)).map
      (fun oi => oi.totalPrice)).sum = 4998 / 100 ∧
    (∀ oi ∈ (createOrder stW "" reqA 5 none).2.orderItems.filter (fun oi => oi.orderId = 1),
      lineTotalOk oi = true) ∧
    (createOrder stW "" reqA 5 none).2.cartItems.filter (fun ci => ci.userId = 1) = [] :=
  checkout_total_equals_sum_of_lines stW "" reqA 5
    (createOrder stW "" reqA 5 none).1 (createOrder stW "" reqA 5 none).2 1 1
    (s!"ORD-{(5 : Int)}-{(1 : Int)}") (4998 / 100) rfl
    (by
      simp [createOrder, resolveUserId, atoi, parseDigits, createOrderBindingOk, stW, reqA,
        initialState, priceCartRows, priceCartRow, lookupCatalog, sampleProducts, sampleRooms,
        insertOrderItems, Except.map]
      norm_num)
    (by decide) (by decide) (by decide)

/-- C2: every run of the checkout transaction is all-or-nothing — either
the state is completely unchanged (any rollback path, for any injected
storage failure), or the order was created complete: the order row with
its reported total, a non-empty set of lines summing to that total,
bookings corresponding one-to-one to its room-dated lines, and an emptied
customer cart. -/
theorem checkout_all_or_nothing
    (st : DBState) (header : String) (req : CreateOrderRequest) (now : Int)
    (failAt : Option Nat) (res : CreateOrderResult) (st' : DBState)
    (hrun : createOrder st header req now failAt = (res, st'))
    (hfreshI : ∀ oi ∈ st.orderItems, oi.orderId ≠ st.nextOrderId)
    (hfreshB : ∀ b ∈ st.roomBookings, b.orderId ≠ st.nextOrderId) :
    st' = st ∨
    ∃ (uid oid : Int) (onum : String) (total : Price),
      resolveUserId header = some uid ∧
      res = .created oid onum total ∧
      (∃ o ∈ st'.orders, o.id = oid ∧ o.totalAmount = total) ∧
      st'.orderItems.filter (fun oi => oi.orderId = oid) ≠ [] ∧
      ((st'.orderItems.filter (fun oi => oi.orderId = oid)).map (fun oi => oi.totalPrice)).sum = total ∧
      ((st'.roomBookings.filter (fun b => b.orderId = oid)).map bookingAttrs =
        (st'.orderItems.filter (fun oi => oi.orderId = oid && isRoomDated oi)).map bookingOfItem) ∧
      st'.cartItems.filter (fun ci => ci.userId = uid) = [] := by
  rcases createOrder_result_cases st header req now failAt with h | ⟨oid, onum, total, h⟩
  · left
    rw [hrun] at h
    exact h
  · right
    rw [hrun] at h
    obtain ⟨uid, huid, -, ho, hne, hsum, -, hbk, hcart⟩ :=
      checkout_success_spec st header req now failAt res st' oid onum total hrun h hfreshI hfreshB
    exact ⟨uid, oid, onum, total, huid, h, ho, hne, hsum, hbk, hcart⟩

/-- Witness for C2 at a concrete cart and an injected failure-free run. -/
theorem checkout_all_or_nothing_witness :
    (createOrder stW "" reqA 5 none).2 = stW ∨
    ∃ (uid oid : Int) (onum : String) (total : Price),
      resolveUserId "" = some uid ∧
      (createOrder stW "" reqA 5 none).1 = .created oid onum total ∧
      (∃ o ∈ (createOrder stW "" reqA 5 none).2.orders, o.id = oid ∧ o.totalAmount = total) ∧
      (createOrder stW "" reqA 5 none).2.orderItems.filter (fun oi => oi.orderId = oid) ≠ [] ∧
      (((createOrder stW "" reqA 5 none).2.orderItems.filter (fun oi => oi.orderId = oid)).map
        (fun oi => oi.totalPrice)).sum = total ∧
      (((createOrder stW "" reqA 5 none).2.roomBookings.filter (fun b => b.orderId = oid)).map
          bookingAttrs =
        ((createOrder stW "" reqA 5 none).2.orderItems.filter
          (fun oi => oi.orderId = oid && isRoomDated oi)).map bookingOfItem) ∧
      (createOrder stW "" reqA 5 none).2.cartItems.filter (fun ci => ci.userId = uid) = [] :=
  checkout_all_or_nothing stW "" reqA 5 none
    (createOrder stW "" reqA 5 none).1 (createOrder stW "" reqA 5 none).2 rfl
    (by decide) (by decide)

/-- Counterexample for C6 as stated: a room-kind cart line without stay
dates checks out into a room-kind order line, yet no `room_bookings` row
is inserted at all. -/
theorem room_line_without_dates_gets_no_booking :
    ((createOrder stRmND "" reqA 0 none).2.orderItems.filter
      (fun oi => oi.itemType = "room")).length = 1 ∧
    (createOrder stRmND "" reqA 0 none).2.roomBookings = [] := by
  constructor <;>
    simp [createOrder, resolveUserId, atoi, parseDigits, createOrderBindingOk, stRmND, reqA,
      initialState, priceCartRows, priceCartRow, lookupCatalog, sampleProducts, sampleRooms,
      insertOrderItems, Except.map, commitState]

/-- C6 (amended): for every successful checkout, the inserted bookings
correspond exactly, one for one and in order, to the room-kind order lines
with both stay dates present — same room, same stay range, guest count
equal to the line's quantity, status `confirmed`. -/
theorem roomDated_lines_one_booking_each
    (st : DBState) (header : String) (req : CreateOrderRequest) (now : Int)
    (res : CreateOrderResult) (st' : DBState) (oid : Int) (onum : String) (total : Price)
    (hrun : createOrder st header req now none = (res, st'))
    (hres : res = .created oid onum total)
    (hfreshI : ∀ oi ∈ st.orderItems, oi.orderId ≠ st.nextOrderId)
    (hfreshB : ∀ b ∈ st.roomBookings, b.orderId ≠ st.nextOrderId) :
    (st'.roomBookings.filter (fun b => b.orderId = oid)).map bookingAttrs =
      (st'.orderItems.filter (fun oi => oi.orderId = oid && isRoomDated oi)).map bookingOfItem := by
  obtain ⟨uid, -, -, -, -, -, -, hbk, -⟩ :=
    checkout_success_spec st header req now none res st' oid onum total hrun hres hfreshI hfreshB
  exact hbk

/-- Witness for C6 (amended) on the section-8 scenario: checkout creates
order 1 with total 150×2 + 10×2 = 320.00, two order lines, and exactly one
booking — for room 7, [2025-07-01, 2025-07-03), one guest, `confirmed`. -/
theorem roomDated_lines_one_booking_each_witness :
    (((createOrder stS8 "" reqA 7 none).2.roomBookings.filter (fun b => b.orderId = 1)).map
        bookingAttrs =
      ((createOrder stS8 "" reqA 7 none).2.orderItems.filter
        (fun oi => oi.orderId = 1 && isRoomDated oi)).map bookingOfItem) ∧
    (createOrder stS8 "" reqA 7 none).1 =
      .created 1 (s!"ORD-{(7 : Int)}-{(1 : Int)}") 320 ∧
    (createOrder stS8 "" reqA 7 none).2.orderItems.length = 2 ∧
    ((createOrder stS8 "" reqA 7 none).2.roomBookings.map bookingAttrs) =
      [(7, daysFromCivil 2025 7 1, daysFromCivil 2025 7 3, 1, "confirmed")] := by
  refine ⟨roomDated_lines_one_booking_each stS8 "" reqA 7
    (createOrder stS8 "" reqA 7 none).1 (createOrder stS8 "" reqA 7 none).2 1
    (s!"ORD-{(7 : Int)}-{(1 : Int)}") 320 rfl ?he (by decide) (by decide), ?he, ?_, ?_⟩
  all_goals
    simp [createOrder, resolveUserId, atoi, parseDigits, createOrderBindingOk, stS8, reqA,
      priceCartRows, priceCartRow, lookupCatalog, insertOrderItems, Except.map, commitState,
      createOrderNights, daysFromCivil, bookingAttrs] <;> norm_num

/-- C7: two `AddToCart` calls with the same customer, kind, item and stay
range and quantities q1, q2 leave exactly one cart line for that
combination, with quantity q1 + q2.  Hypotheses: a resolvable identity
header, gin-valid bodies (non-zero quantities and item id), a catalog item
that exists and is active/available, no pre-existing line of this customer
for this kind and item, and the `SERIAL` freshness of the next cart id. -/
theorem addLine_twice_merges
    (st : DBState) (header : String) (uid itemId : Int) (itemType : String)
    (cin cout : Option Int) (q1 q2 : Int)
    (huid : resolveUserId header = some uid)
    (hq1 : q1 ≠ 0) (hq2 : q2 ≠ 0) (hid : itemId ≠ 0)
    (hcat : (itemType = "room" ∧ st.rooms.any (fun r => r.id = itemId && r.isAvailable) = true) ∨
            (itemType = "product" ∧ st.products.any (fun p => p.id = itemId && p.isActive) = true))
    (hclean : ∀ ci ∈ st.cartItems, ¬ (ci.userId = uid ∧ ci.itemType = itemType ∧ ci.itemId = itemId))
    (hfresh : ∀ ci ∈ st.cartItems, ci.id ≠ st.nextCartItemId) :
    (addToCart (addToCart st header
        { itemType := itemType, itemId := itemId, quantity := q1,
          checkInDate := cin, checkOutDate := cout }).2 header
        { itemType := itemType, itemId := itemId, quantity := q2,
          checkInDate := cin, checkOutDate := cout }).2.cartItems.filter
      (fun ci => ci.userId = uid ∧ ci.itemType = itemType ∧ ci.itemId = itemId ∧
        ci.checkInDate = cin ∧ ci.checkOutDate = cout) =
    [{ id := st.nextCartItemId, userId := uid, itemType := itemType, itemId := itemId,
       quantity := q1 + q2, checkInDate := cin, checkOutDate := cout }] := by
  have htype : itemType ≠ "" := by
    rcases hcat with ⟨h, -⟩ | ⟨h, -⟩ <;> subst h <;> decide
  have hb1 : addToCartBindingOk
      { itemType := itemType, itemId := itemId, quantity := q1,
        checkInDate := cin, checkOutDate := cout } = true := by
    simp [addToCartBindingOk, hq1, hid, htype]
  have hb2 : addToCartBindingOk
      { itemType := itemType, itemId := itemId, quantity := q2,
        checkInDate := cin, checkOutDate := cout } = true := by
    simp [addToCartBindingOk, hq2, hid, htype]
  have hmatch_triple : ∀ (q : Int) (ci : CartItem),
      cartRowMatches uid
        { itemType := itemType, itemId := itemId, quantity := q,
          checkInDate := cin, checkOutDate := cout } ci = true →
      ci.userId = uid ∧ ci.itemType = itemType ∧ ci.itemId = itemId := by
    intro q ci hm
    simp only [cartRowMatches, Bool.and_eq_true, decide_eq_true_eq] at hm
    exact ⟨hm.1.1.1.1, hm.1.1.1.2, hm.1.1.2⟩
  have hfind1 : st.cartItems.find? (cartRowMatches uid
      { itemType := itemType, itemId := itemId, quantity := q1,
        checkInDate := cin, checkOutDate := cout }) = none := by
    rw [List.find?_eq_none]
    intro ci hci hm
    exact hclean ci hci (hmatch_triple q1 ci hm)
  set newItem : CartItem :=
    { id := st.nextCartItemId, userId := uid, itemType := itemType, itemId := itemId,
      quantity := q1, checkInDate := cin, checkOutDate := cout } with hnew
  have hmatch_new : cartRowMatches uid
      { itemType := itemType, itemId := itemId, quantity := q2,
        checkInDate := cin, checkOutDate := cout } newItem = true := by
    cases cin <;> cases cout <;> simp [cartRowMatches, hnew]
  have hcore1 : addToCartCore st uid
      { itemType := itemType, itemId := itemId, quantity := q1,
        checkInDate := cin, checkOutDate := cout } =
      (.created st.nextCartItemId,
       { st with cartItems := st.cartItems ++ [newItem],
                 nextCartItemId := st.nextCartItemId + 1 }) := by
    simp [addToCartCore, hfind1, hnew]
  have hrun1 : (addToCart st header
      { itemType := itemType, itemId := itemId, quantity := q1,
        checkInDate := cin, checkOutDate := cout }).2 =
      { st with cartItems := st.cartItems ++ [newItem],
                nextCartItemId := st.nextCartItemId + 1 } := by
    rcases hcat with ⟨h, hany⟩ | ⟨h, hany⟩ <;> subst h <;>
      simp [addToCart, huid, hb1, hany, hcore1]
  rw [hrun1]
  have hfind2 : (st.cartItems ++ [newItem]).find? (cartRowMatches uid
      { itemType := itemType, itemId := itemId, quantity := q2,
        checkInDate := cin, checkOutDate := cout }) = some newItem := by
    rw [List.find?_append]
    rw [List.find?_eq_none.mpr (fun ci hci hm => hclean ci hci (hmatch_triple q2 ci hm))]
    simp [List.find?_cons, hmatch_new]
  have hcore2 : addToCartCore
      { st with cartItems := st.cartItems ++ [newItem],
                nextCartItemId := st.nextCartItemId + 1 } uid
      { itemType := itemType, itemId := itemId, quantity := q2,
        checkInDate := cin, checkOutDate := cout } =
      (.updated newItem.id,
       { st with
           cartItems := (st.cartItems ++ [newItem]).map (fun ci =>
             if ci.id = newItem.id then { ci with quantity := ci.quantity + q2 } else ci),
           nextCartItemId := st.nextCartItemId + 1 }) := by
    simp [addToCartCore, hfind2]
  have hrun2 : (addToCart
      { st with cartItems := st.cartItems ++ [newItem],
                nextCartItemId := st.nextCartItemId + 1 } header
      { itemType := itemType, itemId := itemId, quantity := q2,
        checkInDate := cin, checkOutDate := cout }).2 =
      { st with
          cartItems := (st.cartItems ++ [newItem]).map (fun ci =>
            if ci.id = newItem.id then { ci with quantity := ci.quantity + q2 } else ci),
          nextCartItemId := st.nextCartItemId + 1 } := by
    rcases hcat with ⟨h, hany⟩ | ⟨h, hany⟩ <;> subst h <;>
      simp [addToCart, huid, hb2, hany, hcore2]
  rw [hrun2]
  have hmap : (st.cartItems ++ [newItem]).map (fun ci =>
      if ci.id = newItem.id then { ci with quantity := ci.quantity + q2 } else ci) =
      st.cartItems ++ [{ newItem with quantity := q1 + q2 }] := by
    rw [List.map_append]
    congr 1
    · conv_rhs => rw [← List.map_id st.cartItems]
      apply List.map_congr_left
      intro ci hci
      rw [if_neg (show ¬ ci.id = newItem.id from hfresh ci hci)]
      rfl
    · simp [hnew]
  rw [hmap, List.filter_append]
  rw [List.filter_eq_nil_iff.mpr (fun ci hci => by
    simp only [decide_eq_true_eq, not_and]
    intro h1 h2 h3 _ _
    exact hclean ci hci ⟨h1, h2, h3⟩)]
  simp [hnew]

/-- `AddToCart` either leaves the state unchanged or performs the
insert-or-increment step for some resolved user. -/
theorem addToCart_state_cases (st : DBState) (header : String) (req : AddToCartRequest) :
    (addToCart st header req).2 = st ∨
    ∃ uid, (addToCart st header req).2 = (addToCartCore st uid req).2 := by
  unfold addToCart
  repeat' first
  | (left; rfl)
  | (right; exact ⟨_, rfl⟩)
  | split

/-- Every cart row after the insert-or-increment step is an old row, the
freshly inserted row (carrying the request quantity), or an incremented old
row. -/
theorem addToCartCore_mem (st : DBState) (uid : Int) (req : AddToCartRequest) (ci : CartItem)
    (hci : ci ∈ (addToCartCore st uid req).2.cartItems) :
    ci ∈ st.cartItems ∨ ci.quantity = req.quantity ∨
    ∃ old ∈ st.cartItems, ci.quantity = old.quantity + req.quantity := by
  rcases hf : st.cartItems.find? (cartRowMatches uid req) with _ | existing
  · simp only [addToCartCore, hf] at hci
    rcases List.mem_append.mp hci with hh | hh
    · exact Or.inl hh
    · right; left
      rw [List.mem_singleton.mp hh]
  · simp only [addToCartCore, hf] at hci
    obtain ⟨old, hold, heq⟩ := List.mem_map.mp hci
    by_cases hid : old.id = existing.id
    · rw [if_pos hid] at heq
      right; right
      exact ⟨old, hold, by rw [← heq]⟩
    · rw [if_neg hid] at heq
      exact Or.inl (heq ▸ hold)

/-- `RemoveFromCart` either leaves the state unchanged or deletes the
caller-owned row. -/
theorem removeFromCart_state_cases (st : DBState) (header : String) (cid : Int) :
    (removeFromCart st header cid).2 = st ∨
    ∃ uid, (removeFromCart st header cid).2 =
      { st with cartItems := st.cartItems.filter (fun ci => ¬ (ci.id = cid ∧ ci.userId = uid)) } := by
  simp only [removeFromCart]
  repeat' first
  | (left; rfl)
  | (right; exact ⟨_, rfl⟩)
  | split

/-- `ClearCart` either leaves the state unchanged or deletes the whole
cart of some resolved user. -/
theorem clearCart_state_cases (st : DBState) (header : String) :
    (clearCart st header).2 = st ∨
    ∃ uid, (clearCart st header).2 =
      { st with cartItems := st.cartItems.filter (fun ci => ¬ ci.userId = uid) } := by
  unfold clearCart
  repeat' first
  | (left; rfl)
  | (right; exact ⟨_, rfl⟩)
  | split

/-- C8 (amended): in every state reachable through the cart operations in
which each `AddToCart` request carries quantity ≥ 1, every cart line has
quantity ≥ 1. -/
theorem cart_quantities_ge_one_of_positive_adds (st : DBState) (h : CartReachablePos st) :
    ∀ ci ∈ st.cartItems, 1 ≤ ci.quantity := by
  induction h with
  | init =>
    intro ci hci
    simp [initialState] at hci
  | add st header req hq hst ih =>
    intro ci hci
    rcases addToCart_state_cases st header req with hc | ⟨uid, hc⟩
    · rw [hc] at hci
      exact ih ci hci
    · rw [hc] at hci
      rcases addToCartCore_mem st uid req ci hci with hh | hh | ⟨old, hold, hh⟩
      · exact ih ci hh
      · omega
      · have := ih old hold
        omega
  | remove st header cid hst ih =>
    intro ci hci
    rcases removeFromCart_state_cases st header cid with hc | ⟨uid, hc⟩
    · rw [hc] at hci
      exact ih ci hci
    · rw [hc] at hci
      exact ih ci (List.mem_filter.mp hci).1
  | clear st header hst ih =>
    intro ci hci
    rcases clearCart_state_cases st header with hc | ⟨uid, hc⟩
    · rw [hc] at hci
      exact ih ci hci
    · rw [hc] at hci
      exact ih ci (List.mem_filter.mp hci).1

/-- Witness for the amended C8: one positive add to the migrated cart. -/
theorem cart_quantities_ge_one_of_positive_adds_witness :
    (addToCart initialState ""
      { itemType := "product", itemId := 2, quantity := 2,
        checkInDate := none, checkOutDate := none }).2.cartItems.all
      (fun ci => 1 ≤ ci.quantity) = true :=
  List.all_eq_true.mpr fun ci hci =>
    decide_eq_true (cart_quantities_ge_one_of_positive_adds _
      (CartReachablePos.add initialState "" _ (by decide) CartReachablePos.init) ci hci)

/-- Counterexample for C8 as stated: `AddToCart` accepts a negative
quantity (gin `required` only rejects 0), so a reachable state holds a cart
line with quantity -1 < 1. -/
theorem cart_quantity_invariant_counterexample :
    CartReachable (addToCart initialState ""
      { itemType := "product", itemId := 1, quantity := -1,
        checkInDate := none, checkOutDate := none }).2 ∧
    ∃ ci ∈ (addToCart initialState ""
      { itemType := "product", itemId := 1, quantity := -1,
        checkInDate := none, checkOutDate := none }).2.cartItems, ci.quantity < 1 :=
  ⟨CartReachable.add initialState "" _ CartReachable.init, by decide⟩

/-- C9: cancelling an existing order reports success, sets every booking of
the order to `cancelled`, and cancelling a second time succeeds and leaves
the state exactly as after the first cancel (idempotence). -/
theorem cancel_order_cascades_and_idempotent
    (st : DBState) (orderId : Int) (notes : String)
    (hex : st.orders.any (fun o => o.id = orderId) = true) :
    (updateOrderStatus st orderId "cancelled" notes).1 = .ok orderId "cancelled" ∧
    (∀ b ∈ (updateOrderStatus st orderId "cancelled" notes).2.roomBookings,
      b.orderId = orderId → b.status = "cancelled") ∧
    updateOrderStatus (updateOrderStatus st orderId "cancelled" notes).2 orderId "cancelled" notes =
      (.ok orderId "cancelled", (updateOrderStatus st orderId "cancelled" notes).2) := by
  have hvalid : validStatuses.contains "cancelled" = true := by decide
  have hvmem : "cancelled" ∈ validStatuses := by decide
  have hrun1 : updateOrderStatus st orderId "cancelled" notes =
      (.ok orderId "cancelled",
       { st with
           orders := st.orders.map (fun o =>
             if o.id = orderId then { o with status := "cancelled", notes := notes } else o),
           roomBookings := st.roomBookings.map (fun b =>
             if b.orderId = orderId then { b with status := "cancelled" } else b) }) := by
    simp [updateOrderStatus, hex, hvalid, hvmem]
  refine ⟨by rw [hrun1], ?_, ?_⟩
  · rw [hrun1]
    intro b hb hbid
    obtain ⟨b0, hb0, heq⟩ := List.mem_map.mp hb
    by_cases hid : b0.orderId = orderId
    · rw [if_pos hid] at heq
      rw [← heq]
    · rw [if_neg hid] at heq
      exact absurd (heq ▸ hbid) hid
  · rw [hrun1]
    have hex2 : (st.orders.map (fun o =>
        if o.id = orderId then { o with status := "cancelled", notes := notes } else o)).any
        (fun o => o.id = orderId) = true := by
      rw [List.any_map]
      refine List.any_eq_true.mpr ?_
      obtain ⟨o, ho, hoid⟩ := List.any_eq_true.mp hex
      refine ⟨o, ho, ?_⟩
      by_cases hid : o.id = orderId
      · simp [Function.comp, hid]
      · exact absurd (by simpa using hoid) hid
    have hmaps : ∀ l : List Order, (l.map (fun o =>
        if o.id = orderId then { o with status := "cancelled", notes := notes } else o)).map
          (fun o => if o.id = orderId then { o with status := "cancelled", notes := notes } else o) =
        l.map (fun o =>
          if o.id = orderId then { o with status := "cancelled", notes := notes } else o) := by
      intro l
      rw [List.map_map]
      apply List.map_congr_left
      intro o _
      by_cases hid : o.id = orderId
      · simp [Function.comp, hid]
      · simp [Function.comp, hid]
    have hmapb : ∀ l : List RoomBooking, (l.map (fun b =>
        if b.orderId = orderId then { b with status := "cancelled" } else b)).map
          (fun b => if b.orderId = orderId then { b with status := "cancelled" } else b) =
        l.map (fun b => if b.orderId = orderId then { b with status := "cancelled" } else b) := by
      intro l
      rw [List.map_map]
      apply List.map_congr_left
      intro b _
      by_cases hid : b.orderId = orderId
      · simp [Function.comp, hid]
      · simp [Function.comp, hid]
    simp [updateOrderStatus, hex2, hvalid, hvmem, hmaps, hmapb]

/-- Witness for C7: adding product 1 twice (quantities 2 and 3) to the empty
migrated cart leaves one line with quantity 5. -/
theorem addLine_twice_merges_witness :
    (addToCart (addToCart initialState ""
        { itemType := "product", itemId := 1, quantity := 2,
          checkInDate := none, checkOutDate := none }).2 ""
        { itemType := "product", itemId := 1, quantity := 3,
          checkInDate := none, checkOutDate := none }).2.cartItems.filter
      (fun ci => ci.userId = 1 ∧ ci.itemType = "product" ∧ ci.itemId = 1 ∧
        ci.checkInDate = none ∧ ci.checkOutDate = none) =
    [{ id := 1, userId := 1, itemType := "product", itemId := 1,
       quantity := 2 + 3, checkInDate := none, checkOutDate := none }] :=
  addLine_twice_merges initialState "" 1 1 "product" none none 2 3
    (by decide) (by decide) (by decide) (by decide)
    (Or.inr ⟨rfl, by decide⟩) (by decide) (by decide)

/-- Witness for C9 on a database with one confirmed order and booking. -/
theorem cancel_order_cascades_and_idempotent_witness :
    (updateOrderStatus stC9 1 "cancelled" "late").1 = .ok 1 "cancelled" ∧
    (∀ b ∈ (updateOrderStatus stC9 1 "cancelled" "late").2.roomBookings,
      b.orderId = 1 → b.status = "cancelled") ∧
    updateOrderStatus (updateOrderStatus stC9 1 "cancelled" "late").2 1 "cancelled" "late" =
      (.ok 1 "cancelled", (updateOrderStatus stC9 1 "cancelled" "late").2) :=
  cancel_order_cascades_and_idempotent stC9 1 "late" (by decide)


end HotelShop
